import Mathlib

/-! # Verification of the multi-agent researcher assistant

Shallow embedding of the repository's pure logic:
* `tools.py` — `WebsiteScraper._run`, `DataExtractor._run`
* `agents.py` — `CustomOllama`, `get_llm`, `create_agent`, the five agents,
  `create_research_tasks`, `create_basic_research_tasks`

Python strings are modelled as `List Char` in the tools (so that `lower`,
`strip`, `split('.')` and the `in` substring test are plain list functions),
and as `String` in the agent/task metadata.
-/

namespace ResearchAssistant

/-- Characters of a Lean string literal, used to transcribe Python string
literals into the `List Char` model. -/
def pystr (s : String) : List Char := s.data

/-- Python `str.lower()` (ASCII behaviour of `Char.toLower`). -/
def pyLower (s : List Char) : List Char := s.map Char.toLower

/-- Helper for the substring test: is `p` an initial segment of `s`? -/
def isPre : List Char → List Char → Bool
  | [], _ => true
  | _ :: _, [] => false
  | a :: as, b :: bs => a == b && isPre as bs

/-- Python's `p in s` substring test on strings. -/
def pyIn (p : List Char) : List Char → Bool
  | [] => p.isEmpty
  | c :: cs => isPre p (c :: cs) || pyIn p cs

/-- Python `str.strip()`: drop whitespace from both ends. -/
def pyStrip (s : List Char) : List Char :=
  (((s.dropWhile Char.isWhitespace).reverse).dropWhile Char.isWhitespace).reverse

/-- Python `content.split('.')`: split on every period, keeping empty pieces. -/
def pySplitDot : List Char → List (List Char)
  | [] => [[]]
  | c :: cs =>
    if c = '.' then [] :: pySplitDot cs
    else
      match pySplitDot cs with
      | [] => [[c]]
      | t :: ts => (c :: t) :: ts

namespace tools

/-- `contact_keywords` from `DataExtractor._run` (tools.py line 86). -/
def contact_keywords : List (List Char) :=
  [pystr "contact", pystr "email", pystr "phone", pystr "address", pystr "support"]

/-- `product_keywords` from `DataExtractor._run` (tools.py line 101). -/
def product_keywords : List (List Char) :=
  [pystr "product", pystr "service", pystr "solution", pystr "offer"]

/-- `about_keywords` from `DataExtractor._run` (tools.py line 115). -/
def about_keywords : List (List Char) :=
  [pystr "about", pystr "company", pystr "mission", pystr "vision", pystr "founded", pystr "history"]

/-- The keyword loop shared by the three supported branches of
`DataExtractor._run` (tools.py lines 89-96, 104-110, 118-124): for each
keyword in order, if the keyword occurs in `content.lower()`, append every
`sentence.strip()` for the sentences of `content.split('.')` whose lowering
contains the keyword. -/
def extractFor (content : List Char) (keywords : List (List Char)) : List (List Char) :=
  keywords.foldl
    (fun extracted keyword =>
      if pyIn keyword (pyLower content) then
        extracted ++ ((pySplitDot content).filter (fun s => pyIn keyword (pyLower s))).map pyStrip
      else extracted)
    []

/-- `DataExtractor._run(content, data_type)` (tools.py lines 80-128). -/
def dataExtractor_run (content data_type : List Char) : List Char :=
  if pyLower data_type = pystr "contact" then
    List.intercalate (pystr "\n") ((extractFor content contact_keywords).take 5)
  else if pyLower data_type = pystr "products" then
    List.intercalate (pystr "\n") ((extractFor content product_keywords).take 10)
  else if pyLower data_type = pystr "about" then
    List.intercalate (pystr "\n") ((extractFor content about_keywords).take 10)
  else
    pystr "Data type '" ++ data_type ++ pystr "' not supported. Supported types: contact, products, about"

/-- Outcome of the HTTP fetch + HTML cleanup in `WebsiteScraper._run`
(tools.py lines 20-39): either the cleaned page text, a
`requests.exceptions.RequestException` message, or any other exception
message. The network call and the BeautifulSoup parse are external
libraries; the embedding takes their outcome as input. -/
inductive FetchOutcome where
  | ok (cleanedText : List Char)
  | requestError (msg : List Char)
  | otherError (msg : List Char)
deriving DecidableEq

/-- The length cap of `WebsiteScraper._run` (tools.py lines 42-43): text over
5000 characters is cut to its first 5000 characters plus `"..."`. -/
def scraperTruncate (text : List Char) : List Char :=
  if text.length > 5000 then text.take 5000 ++ pystr "..." else text

/-- `WebsiteScraper._run` (tools.py lines 17-50) after the external fetch and
parse: the success path caps the cleaned text, the two `except` branches turn
the exception into an error string returned as the result. -/
def websiteScraper_run : FetchOutcome → List Char
  | .ok text => scraperTruncate text
  | .requestError e => pystr "Error scraping website: " ++ e
  | .otherError e => pystr "Unexpected error: " ++ e

end tools

namespace agents

/-- Presence of an environment variable under Python truthiness: `os.getenv`
yields `none` when the variable is unset, and an empty string is falsy. -/
def truthy : Option String → Bool
  | none => false
  | some s => s ≠ ""

/-- The credential environment variables read by `agents.py`
(`XAI_API_KEY`, `OPENAI_API_KEY`). -/
structure Env where
  xai_api_key : Option String
  openai_api_key : Option String
deriving DecidableEq

/-- The `CustomOllama` wrapper's configuration fields (agents.py lines 10-14).
`timeout` is the wall-clock budget in seconds; the float `1200.0` is modelled
as the natural number 1200, and the float `0.1` as the rational 1/10. -/
structure CustomOllama where
  model : String := "ollama/tinyllama"
  base_url : String := "http://localhost:11434"
  temperature : ℚ := 1/10
  timeout : ℕ := 1200
deriving DecidableEq

/-- A chat message as passed to `litellm`: role, content, and an optional
`"tool_calls"` entry (the tool-call marker). -/
structure Message where
  role : String
  content : String
  tool_calls : Option String := none
deriving DecidableEq

/-- The `prompts` argument of `CustomOllama._generate` / `_agenerate`:
either a single string or an already-built message list
(agents.py lines 18-21 and 38-41). -/
inductive Prompts where
  | str (s : String)
  | msgs (l : List Message)
deriving DecidableEq

/-- The argument record of the `litellm.completion` / `litellm.acompletion`
call built by `CustomOllama` (agents.py lines 25-32 and 45-52). The call
itself is an external service; the embedding exposes the request it is
handed, including the timeout it is told to enforce. -/
structure CompletionRequest where
  model : String
  api_base : String
  messages : List Message
  temperature : ℚ
  max_tokens : ℕ
  timeout : ℕ
deriving DecidableEq

/-- The `del msg["tool_calls"]` loop body (agents.py lines 22-24 / 42-44). -/
def stripToolCalls (m : Message) : Message := { m with tool_calls := none }

/-- `CustomOllama._generate` up to the external `litellm.completion` call
(agents.py lines 16-32): the request it dispatches in the blocking mode. -/
def customOllama_generate (self : CustomOllama) (prompts : Prompts) : CompletionRequest :=
  let messages : List Message := match prompts with
    | .str s => [{ role := "user", content := s }]
    | .msgs l => l
  { model := self.model
    api_base := self.base_url
    messages := messages.map stripToolCalls
    temperature := self.temperature
    max_tokens := 1000
    timeout := self.timeout }

/-- `CustomOllama._agenerate` up to the external `litellm.acompletion` call
(agents.py lines 36-52): the request it dispatches in the async
(suspend-until-response) mode; its construction is identical to the
blocking mode's. -/
def customOllama_agenerate (self : CustomOllama) (prompts : Prompts) : CompletionRequest :=
  let messages : List Message := match prompts with
    | .str s => [{ role := "user", content := s }]
    | .msgs l => l
  { model := self.model
    api_base := self.base_url
    messages := messages.map stripToolCalls
    temperature := self.temperature
    max_tokens := 1000
    timeout := self.timeout }

/-- A `ChatOpenAI` configuration (agents.py lines 65-71 and 76-80). -/
structure ChatOpenAIConfig where
  model_name : String
  base_url : Option String := none
  api_key : Option String := none
  temperature : ℚ
  max_tokens : ℕ
deriving DecidableEq

/-- The language-model backend value returned by `get_llm`. -/
inductive LLMBackend where
  | chatOpenAI (cfg : ChatOpenAIConfig)
  | customOllama (cfg : CustomOllama)
deriving DecidableEq

/-- `get_llm` (agents.py lines 60-89): the xAI key wins, else the OpenAI key,
else the `CustomOllama` local fallback. (The `try` around the fallback only
guards a `print` and an `os.environ` write; constructing the pure
`CustomOllama` record cannot fail in the model.) -/
def get_llm (env : Env) : LLMBackend :=
  if truthy env.xai_api_key then
    .chatOpenAI { model_name := "grok", base_url := some "https://api.x.ai/v1",
                  api_key := env.xai_api_key, temperature := 1/10, max_tokens := 2000 }
  else if truthy env.openai_api_key then
    .chatOpenAI { model_name := "gpt-3.5-turbo", temperature := 1/10, max_tokens := 2000 }
  else
    .customOllama {}

/-- The three tool instances of tools.py (lines 131-133) as referenced from
`agents.py`. -/
inductive ToolRef where
  | scrape_website
  | find_company_website
  | extract_data
deriving DecidableEq

/-- An `Agent` as constructed by `create_agent` (agents.py lines 96-106). -/
structure Agent where
  role : String
  goal : String
  backstory : String
  verbose : Bool
  allow_delegation : Bool
  tools : List ToolRef
  llm : LLMBackend
  max_iter : ℕ
  memory : Bool
deriving DecidableEq

/-- `create_agent(role, goal, backstory, tools)` (agents.py lines 92-106):
binds the backend chosen by `get_llm` and keeps the given tools only when an
xAI or OpenAI key is present, else suppresses them to `[]`. -/
def create_agent (env : Env) (role goal backstory : String) (tools : List ToolRef) : Agent :=
  let llm := get_llm env
  let use_tools := if truthy env.xai_api_key || truthy env.openai_api_key then tools else []
  { role := role, goal := goal, backstory := backstory, verbose := true,
    allow_delegation := false, tools := use_tools, llm := llm, max_iter := 3, memory := true }

/-- The `WebResearcher` module-level agent (agents.py lines 108-116). -/
def WebResearcher (env : Env) : Agent :=
  create_agent env
    "Web Research Specialist"
    "Conduct comprehensive web research to gather accurate and up-to-date information about companies, products, and market trends"
    "You are an expert web researcher with years of experience in market analysis \n    and competitive intelligence. You have a keen eye for finding reliable sources and can \n    distinguish between credible and unreliable information. You excel at finding recent news, \n    company information, and market data from various online sources."
    [.scrape_website, .find_company_website]

/-- The `DataExtractor` module-level agent (agents.py lines 118-126). -/
def DataExtractorAgent (env : Env) : Agent :=
  create_agent env
    "Data Extraction Specialist"
    "Extract and structure relevant information from company websites and online sources"
    "You are a skilled data extraction specialist with expertise in web scraping \n    and data parsing. You can efficiently navigate websites, extract key information, and \n    organize it in a structured format. You have experience with various website structures \n    and can adapt to different layouts and formats."
    [.scrape_website, .extract_data]

/-- The `ReportEditor` module-level agent (agents.py lines 128-136). -/
def ReportEditor (env : Env) : Agent :=
  create_agent env
    "Research Report Editor"
    "Create comprehensive, well-structured reports by synthesizing research data and extracted information"
    "You are an experienced business analyst and report writer with expertise \n    in creating professional research reports. You excel at synthesizing information from \n    multiple sources, identifying key insights, and presenting findings in a clear, \n    structured format. You have a strong background in business analysis and market research."
    [.extract_data]

/-- The `MarketAnalyst` module-level agent (agents.py lines 138-146). -/
def MarketAnalyst (env : Env) : Agent :=
  create_agent env
    "Market Analysis Specialist"
    "Analyze market trends, competitive landscape, and provide strategic insights"
    "You are a senior market analyst with deep expertise in competitive \n    intelligence and market research. You can identify market trends, analyze competitive \n    positioning, and provide strategic insights. You have experience across various \n    industries and can quickly understand market dynamics."
    [.scrape_website, .find_company_website]

/-- The `NewsAnalyst` module-level agent (agents.py lines 148-156). -/
def NewsAnalyst (env : Env) : Agent :=
  create_agent env
    "News Analysis Specialist"
    "Analyze recent news and developments to provide insights on company performance and public sentiment"
    "You are a skilled news analyst with expertise in media monitoring and \n    sentiment analysis. You can quickly identify important news developments, analyze \n    their potential impact, and gauge public sentiment. You have experience in financial \n    news analysis and can distinguish between significant and routine news."
    [.scrape_website, .find_company_website]

/-- A `Task` as constructed in `agents.py` (description, assigned agent,
expected output). -/
structure Task where
  description : String
  agent : Agent
  expected_output : String
deriving DecidableEq

/-- `create_research_tasks(company_name)` (agents.py lines 159-236):
the five comprehensive tasks, in source order. -/
def create_research_tasks (env : Env) (company_name : String) : List Task :=
  let web_research_task : Task :=
    { description := "\n        Conduct comprehensive web research for " ++ company_name ++ ":\n        1. Find the official website using the company website finder tool\n        2. Research company background, history, and mission\n        3. Identify key products and services\n        4. Look for recent news and developments\n        5. Gather market position information\n        \n        Company to research: " ++ company_name ++ "\n        "
      agent := WebResearcher env
      expected_output := "Comprehensive company information including website, background, products, and recent developments" }
  let data_extraction_task : Task :=
    { description := "\n        Extract structured data from " ++ company_name ++ "'s website and online presence:\n        1. Scrape the main website content\n        2. Extract contact information using the data extraction tool\n        3. Extract product/service information\n        4. Extract company overview and about information\n        5. Organize all extracted data in a structured format\n        \n        Use the previous research to identify the correct website to scrape.\n        "
      agent := DataExtractorAgent env
      expected_output := "Structured data including contact info, products, services, and company details" }
  let market_analysis_task : Task :=
    { description := "\n        Analyze " ++ company_name ++ "'s market position and competitive landscape:\n        1. Research competitors and market positioning\n        2. Analyze industry trends relevant to the company\n        3. Identify market opportunities and challenges\n        4. Assess company's competitive advantages\n        \n        Use web research tools to gather competitive intelligence.\n        "
      agent := MarketAnalyst env
      expected_output := "Market analysis including competitive landscape, positioning, and industry trends" }
  let news_analysis_task : Task :=
    { description := "\n        Analyze recent news and developments about " ++ company_name ++ ":\n        1. Find recent news articles and press releases\n        2. Analyze sentiment and public perception\n        3. Identify significant developments or changes\n        4. Assess potential impact on business\n        \n        Focus on news from the last 6 months.\n        "
      agent := NewsAnalyst env
      expected_output := "News analysis including recent developments, sentiment, and impact assessment" }
  let report_creation_task : Task :=
    { description := "\n        Create a concise research report for " ++ company_name ++ " using gathered information:\n        1. Brief executive summary with key findings\n        2. Company overview (100-150 words)\n        3. Key products and services (list main offerings)\n        4. Basic market position (1-2 sentences)\n        5. Recent developments (1-2 sentences)\n        6. Contact information (if available)\n        \n        Keep the report short and focused to minimize processing time.\n        "
      agent := ReportEditor env
      expected_output := "A concise research report with summary, overview, products, market position, and recent developments" }
  [web_research_task, data_extraction_task, market_analysis_task, news_analysis_task, report_creation_task]

/-- `create_basic_research_tasks(company_name)` (agents.py lines 238-279):
the three basic tasks, in source order. -/
def create_basic_research_tasks (env : Env) (company_name : String) : List Task :=
  let research_task : Task :=
    { description := "\n        Research " ++ company_name ++ " comprehensively:\n        1. Find the official website\n        2. Gather company background information\n        3. Identify products and services\n        4. Look for contact information\n        "
      agent := WebResearcher env
      expected_output := "Company research including website, background, and basic information" }
  let extraction_task : Task :=
    { description := "\n        Extract structured data from " ++ company_name ++ ":\n        1. Scrape website content\n        2. Extract contact information\n        3. Extract product/service details\n        4. Organize information systematically\n        "
      agent := DataExtractorAgent env
      expected_output := "Structured company data with contact info and product details" }
  let report_task : Task :=
    { description := "\n        Create a concise research report for " ++ company_name ++ ":\n        1. Brief executive summary\n        2. Company overview (100-150 words)\n        3. Key products and services (list main offerings)\n        4. Contact information (if available)\n        \n        Keep the report short to minimize processing time.\n        "
      agent := ReportEditor env
      expected_output := "Concise research report with summary, overview, products, and contact info" }
  [research_task, extraction_task, report_task]

end agents

/-! ## Helper lemmas about the Python string operations -/

theorem pyIn_nil (s : List Char) : pyIn [] s = true := by
  cases s <;> simp [pyIn, isPre, List.isEmpty]

theorem isPre_iff (p s : List Char) : isPre p s = true ↔ ∃ t, s = p ++ t := by
  induction p generalizing s with
  | nil => simp [isPre]
  | cons a as ih =>
    cases s with
    | nil => simp [isPre]
    | cons b bs =>
      simp only [isPre, Bool.and_eq_true, beq_iff_eq, ih, List.cons_append, List.cons.injEq]
      constructor
      · rintro ⟨rfl, t, rfl⟩
        exact ⟨t, rfl, rfl⟩
      · rintro ⟨t, rfl, rfl⟩
        exact ⟨rfl, t, rfl⟩

theorem pyIn_iff (p s : List Char) : pyIn p s = true ↔ ∃ a b, s = a ++ p ++ b := by
  induction s with
  | nil =>
    simp only [pyIn, List.isEmpty_iff]
    constructor
    · rintro rfl
      exact ⟨[], [], rfl⟩
    · rintro ⟨a, b, h⟩
      rcases List.append_eq_nil.mp h.symm with ⟨h1, rfl⟩
      rcases List.append_eq_nil.mp h1 with ⟨rfl, rfl⟩
      rfl
  | cons c cs ih =>
    simp only [pyIn, Bool.or_eq_true, isPre_iff, ih]
    constructor
    · rintro (⟨t, ht⟩ | ⟨a, b, rfl⟩)
      · exact ⟨[], t, by simpa using ht⟩
      · exact ⟨c :: a, b, rfl⟩
    · rintro ⟨a, b, h⟩
      cases a with
      | nil =>
        left
        exact ⟨b, by simpa using h⟩
      | cons a0 as =>
        right
        simp only [List.cons_append, List.cons.injEq] at h
        exact ⟨as, b, h.2⟩

theorem pyIn_reverse {p s : List Char} (h : pyIn p s = true) :
    pyIn p.reverse s.reverse = true := by
  rcases (pyIn_iff p s).mp h with ⟨a, b, rfl⟩
  refine (pyIn_iff _ _).mpr ⟨b.reverse, a.reverse, ?_⟩
  simp [List.reverse_append, List.append_assoc]

theorem toLower_of_isWhitespace {c : Char} (h : c.isWhitespace = true) : c.toLower = c := by
  simp [Char.isWhitespace] at h
  rcases h with ((rfl | rfl) | rfl) | rfl <;> decide

theorem pyIn_lower_dropWhile (p : List Char) (hp : ∀ c ∈ p, c.isWhitespace = false)
    (s : List Char) (h : pyIn p (pyLower s) = true) :
    pyIn p (pyLower (s.dropWhile Char.isWhitespace)) = true := by
  induction s with
  | nil => exact h
  | cons c cs ih =>
    rw [List.dropWhile_cons]
    by_cases hw : c.isWhitespace = true
    · rw [if_pos hw]
      have h' : isPre p (c.toLower :: pyLower cs) = true ∨ pyIn p (pyLower cs) = true := by
        simpa [pyLower, pyIn, Bool.or_eq_true] using h
      rcases h' with hpre | hrest
      · cases p with
        | nil => exact pyIn_nil _
        | cons d ds =>
          exfalso
          have hd : d = c.toLower := by
            have h2 := hpre
            simp only [isPre, Bool.and_eq_true, beq_iff_eq] at h2
            exact h2.1
          have hcc : c.toLower = c := toLower_of_isWhitespace hw
          have : d.isWhitespace = false := hp d (List.mem_cons_self d ds)
          rw [hd, hcc, hw] at this
          exact Bool.true_eq_false.mp this
      · exact ih hrest
    · rw [if_neg hw]
      exact h

theorem pyIn_lower_strip (p : List Char) (hp : ∀ c ∈ p, c.isWhitespace = false)
    (s : List Char) (h : pyIn p (pyLower s) = true) :
    pyIn p (pyLower (pyStrip s)) = true := by
  have hp' : ∀ c ∈ p.reverse, c.isWhitespace = false := fun c hc => hp c (List.mem_reverse.mp hc)
  have h1 := pyIn_lower_dropWhile p hp s h
  have h2 : pyIn p.reverse (pyLower ((s.dropWhile Char.isWhitespace).reverse)) = true := by
    have := pyIn_reverse h1
    simpa [pyLower, List.map_reverse] using this
  have h3 := pyIn_lower_dropWhile p.reverse hp' _ h2
  have h4 := pyIn_reverse h3
  simpa [pyLower, pyStrip, List.map_reverse, List.reverse_reverse] using h4

theorem foldl_append_eq {α β : Type} (g : α → List β) (l : List α) (acc : List β) :
    l.foldl (fun a x => a ++ g x) acc = acc ++ l.flatMap g := by
  induction l generalizing acc with
  | nil => simp
  | cons x xs ih => simp [List.foldl_cons, ih, List.flatMap_cons, List.append_assoc]

theorem extractFor_eq (content : List Char) (kws : List (List Char)) :
    tools.extractFor content kws = kws.flatMap (fun kw =>
      if pyIn kw (pyLower content) = true then
        ((pySplitDot content).filter (fun s => pyIn kw (pyLower s))).map pyStrip
      else []) := by
  unfold tools.extractFor
  have hfun : (fun (extracted : List (List Char)) (keyword : List Char) =>
        if pyIn keyword (pyLower content) then
          extracted ++ ((pySplitDot content).filter (fun s => pyIn keyword (pyLower s))).map pyStrip
        else extracted)
      = fun (extracted : List (List Char)) (keyword : List Char) => extracted ++
          (if pyIn keyword (pyLower content) = true then
            ((pySplitDot content).filter (fun s => pyIn keyword (pyLower s))).map pyStrip
          else []) := by
    funext a x
    by_cases hx : pyIn x (pyLower content) = true <;> simp [hx]
  rw [hfun, foldl_append_eq]
  simp

theorem extractFor_mem {content : List Char} {kws : List (List Char)}
    (hkw : ∀ kw ∈ kws, ∀ c ∈ kw, c.isWhitespace = false)
    {u : List Char} (hu : u ∈ tools.extractFor content kws) :
    ∃ kw ∈ kws, pyIn kw (pyLower u) = true ∧ ∃ s ∈ pySplitDot content, u = pyStrip s := by
  rw [extractFor_eq] at hu
  rcases List.mem_flatMap.mp hu with ⟨kw, hkwmem, hu2⟩
  by_cases hc : pyIn kw (pyLower content) = true
  · rw [if_pos hc] at hu2
    rcases List.mem_map.mp hu2 with ⟨s, hs, rfl⟩
    rcases List.mem_filter.mp hs with ⟨hsmem, hspy⟩
    exact ⟨kw, hkwmem, pyIn_lower_strip kw (hkw kw hkwmem) s hspy, s, hsmem, rfl⟩
  · rw [if_neg hc] at hu2
    simp at hu2

theorem extractFor_eq_nil {content : List Char} {kws : List (List Char)}
    (h : ∀ s ∈ pySplitDot content, ∀ kw ∈ kws, pyIn kw (pyLower s) = false) :
    tools.extractFor content kws = [] := by
  rw [extractFor_eq, List.eq_nil_iff_forall_not_mem]
  intro u hu
  rcases List.mem_flatMap.mp hu with ⟨kw, hkwmem, hu2⟩
  by_cases hc : pyIn kw (pyLower content) = true
  · rw [if_pos hc] at hu2
    rcases List.mem_map.mp hu2 with ⟨s, hs, rfl⟩
    rcases List.mem_filter.mp hs with ⟨hsmem, hspy⟩
    rw [h s hsmem kw hkwmem] at hspy
    exact Bool.false_ne_true hspy
  · rw [if_neg hc] at hu2
    simp at hu2

/-! ## Claims -/

/-- Claim C1: backend selection is deterministic with fixed precedence — for
every environment, a present (truthy) xAI credential selects the Grok
`ChatOpenAI` backend regardless of any other keys; otherwise a present OpenAI
credential selects the gpt-3.5-turbo backend; otherwise the local
`CustomOllama` fallback is returned. -/
theorem C1_backend_precedence (env : agents.Env) :
    (agents.truthy env.xai_api_key = true →
      agents.get_llm env = .chatOpenAI
        { model_name := "grok"
          base_url := some "https://api.x.ai/v1"
          api_key := env.xai_api_key
          temperature := 1/10
          max_tokens := 2000 })
    ∧ (agents.truthy env.xai_api_key = false → agents.truthy env.openai_api_key = true →
      agents.get_llm env = .chatOpenAI
        { model_name := "gpt-3.5-turbo"
          temperature := 1/10
          max_tokens := 2000 })
    ∧ (agents.truthy env.xai_api_key = false → agents.truthy env.openai_api_key = false →
      agents.get_llm env = .customOllama {}) := by
  refine ⟨fun h1 => ?_, fun h1 h2 => ?_, fun h1 h2 => ?_⟩ <;>
    simp [agents.get_llm, h1]
  · simp [h2]
  · simp [h2]

theorem C1_backend_precedence_witness :
    agents.get_llm ⟨some "xk", some "ok"⟩ = .chatOpenAI
      { model_name := "grok"
        base_url := some "https://api.x.ai/v1"
        api_key := some "xk"
        temperature := 1/10
        max_tokens := 2000 }
    ∧ agents.get_llm ⟨none, some "ok"⟩ = .chatOpenAI
      { model_name := "gpt-3.5-turbo"
        temperature := 1/10
        max_tokens := 2000 }
    ∧ agents.get_llm ⟨none, none⟩ = .customOllama {} :=
  ⟨(C1_backend_precedence ⟨some "xk", some "ok"⟩).1 (by decide),
   (C1_backend_precedence ⟨none, some "ok"⟩).2.1 rfl (by decide),
   (C1_backend_precedence ⟨none, none⟩).2.2 rfl rfl⟩

/-- Claim C2: for every company name (and environment), the basic builder
returns exactly 3 tasks ordered research → extraction → report and the
comprehensive builder exactly 5 tasks ordered research → extraction → market
analysis → news analysis → report, identified by the responsible agent's
role; both are pure functions of their inputs, so the sequence is identical
on every call — no reordering and no conditional skipping. -/
theorem C2_task_sequences (env : agents.Env) (name : String) :
    (agents.create_basic_research_tasks env name).length = 3
    ∧ (agents.create_research_tasks env name).length = 5
    ∧ (agents.create_basic_research_tasks env name).map (fun t => t.agent.role)
        = ["Web Research Specialist", "Data Extraction Specialist", "Research Report Editor"]
    ∧ (agents.create_research_tasks env name).map (fun t => t.agent.role)
        = ["Web Research Specialist", "Data Extraction Specialist",
           "Market Analysis Specialist", "News Analysis Specialist", "Research Report Editor"] :=
  ⟨rfl, rfl, rfl, rfl⟩

/-- Claim C3: tool availability is fixed by the backend active at
agent-creation time — when `get_llm` resolves to the local `CustomOllama`
fallback (equivalently, neither hosted credential is present) every created
agent carries an empty tool list, and when a hosted credential is present the
agent keeps exactly the tool list it was given. -/
theorem C3_tools_gating (env : agents.Env) (role goal backstory : String)
    (tools : List agents.ToolRef) :
    (agents.get_llm env = .customOllama {} →
      (agents.create_agent env role goal backstory tools).tools = [])
    ∧ ((agents.truthy env.xai_api_key = true ∨ agents.truthy env.openai_api_key = true) →
      (agents.create_agent env role goal backstory tools).tools = tools) := by
  constructor
  · intro h
    have hx : agents.truthy env.xai_api_key = false := by
      by_contra hx
      rw [Bool.not_eq_false] at hx
      simp [agents.get_llm, hx] at h
    have ho : agents.truthy env.openai_api_key = false := by
      by_contra ho
      rw [Bool.not_eq_false] at ho
      simp [agents.get_llm, hx, ho] at h
    simp [agents.create_agent, hx, ho]
  · intro h
    rcases h with h | h <;> simp [agents.create_agent, h]

theorem C3_tools_gating_witness :
    (agents.create_agent ⟨none, none⟩ "r" "g" "b" [.extract_data]).tools = []
    ∧ (agents.create_agent ⟨some "k", none⟩ "r" "g" "b" [.extract_data]).tools
        = [.extract_data] :=
  ⟨(C3_tools_gating ⟨none, none⟩ "r" "g" "b" [.extract_data]).1 rfl,
   (C3_tools_gating ⟨some "k", none⟩ "r" "g" "b" [.extract_data]).2 (Or.inl (by decide))⟩

/-- Claim C4: for every content and each supported category, every unit of
the snippet extractor's output is the strip of one of the period-split
sentences of the content and contains (under the code's case-insensitive
matching) at least one keyword of that category's fixed set; the output has
at most 5 units for contact and at most 10 for products/about; and on the
concrete input of the claim with category contact, the result is exactly the
period-split unit carrying the contact keyword — the products sentence never
appears. -/
theorem C4_extract_snippets (content : List Char) :
    (∀ u ∈ (tools.extractFor content tools.contact_keywords).take 5,
      (∃ kw ∈ tools.contact_keywords, pyIn kw (pyLower u) = true)
      ∧ ∃ s ∈ pySplitDot content, u = pyStrip s)
    ∧ ((tools.extractFor content tools.contact_keywords).take 5).length ≤ 5
    ∧ tools.dataExtractor_run content (pystr "contact")
        = List.intercalate (pystr "\n") ((tools.extractFor content tools.contact_keywords).take 5)
    ∧ (∀ u ∈ (tools.extractFor content tools.product_keywords).take 10,
      (∃ kw ∈ tools.product_keywords, pyIn kw (pyLower u) = true)
      ∧ ∃ s ∈ pySplitDot content, u = pyStrip s)
    ∧ ((tools.extractFor content tools.product_keywords).take 10).length ≤ 10
    ∧ tools.dataExtractor_run content (pystr "products")
        = List.intercalate (pystr "\n") ((tools.extractFor content tools.product_keywords).take 10)
    ∧ (∀ u ∈ (tools.extractFor content tools.about_keywords).take 10,
      (∃ kw ∈ tools.about_keywords, pyIn kw (pyLower u) = true)
      ∧ ∃ s ∈ pySplitDot content, u = pyStrip s)
    ∧ ((tools.extractFor content tools.about_keywords).take 10).length ≤ 10
    ∧ tools.dataExtractor_run content (pystr "about")
        = List.intercalate (pystr "\n") ((tools.extractFor content tools.about_keywords).take 10)
    ∧ tools.dataExtractor_run
        (pystr "Contact us at info@x.com. Our products are great. We are a team.")
        (pystr "contact") = pystr "Contact us at info@x"
    ∧ pyIn (pystr "Our products are great")
        (tools.dataExtractor_run
          (pystr "Contact us at info@x.com. Our products are great. We are a team.")
          (pystr "contact")) = false := by
  refine ⟨?_, List.length_take_le _ _, rfl, ?_, List.length_take_le _ _, rfl,
    ?_, List.length_take_le _ _, rfl, by decide, by decide⟩ <;>
  · intro u hu
    rcases extractFor_mem (by decide) (List.take_subset _ _ hu) with ⟨kw, hkwm, hpy, s, hsm, hus⟩
    exact ⟨⟨kw, hkwm, hpy⟩, s, hsm, hus⟩

theorem C4_extract_snippets_witness :
    (∃ kw ∈ tools.contact_keywords, pyIn kw (pyLower (pystr "Contact us at info@x")) = true)
    ∧ ∃ s ∈ pySplitDot (pystr "Contact us at info@x.com. Our products are great. We are a team."),
        pystr "Contact us at info@x" = pyStrip s :=
  (C4_extract_snippets
      (pystr "Contact us at info@x.com. Our products are great. We are a team.")).1
    (pystr "Contact us at info@x") (by decide)

/-- Claim C5: the scraper's success path truncates to a fixed cap — whenever
the cleaned text exceeds 5000 characters the result is exactly its first 5000
characters followed by the 3-character marker `"..."`, and text of at most
5000 characters is returned unchanged, with no marker. -/
theorem C5_scraper_truncation (text : List Char) :
    (text.length > 5000 →
      tools.scraperTruncate text = text.take 5000 ++ pystr "..."
      ∧ (pystr "...").length = 3)
    ∧ (text.length ≤ 5000 → tools.scraperTruncate text = text)
    ∧ tools.websiteScraper_run (.ok text) = tools.scraperTruncate text := by
  refine ⟨fun h => ⟨?_, rfl⟩, fun h => ?_, rfl⟩
  · unfold tools.scraperTruncate
    rw [if_pos h]
  · unfold tools.scraperTruncate
    rw [if_neg (Nat.not_lt.mpr h)]

theorem C5_scraper_truncation_witness :
    tools.scraperTruncate (List.replicate 5500 'a')
      = List.replicate 5000 'a' ++ pystr "..."
    ∧ tools.scraperTruncate (pystr "short") = pystr "short" := by
  constructor
  · have h := (C5_scraper_truncation (List.replicate 5500 'a')).1
      (by rw [List.length_replicate]; norm_num)
    rw [h.1, List.take_replicate]
    norm_num
  · exact (C5_scraper_truncation (pystr "short")).2.1 (by decide)

/-- Claim C6 as stated is false at category `"CONTACT"`: the string differs
from all three supported category values, yet `DataExtractor._run` lowercases
the category before comparing, treats it as the contact category, and returns
extraction output (here `"Contact us"`) instead of the unsupported-category
message. -/
theorem C6_counterexample :
    pystr "CONTACT" ≠ pystr "contact"
    ∧ pystr "CONTACT" ≠ pystr "products"
    ∧ pystr "CONTACT" ≠ pystr "about"
    ∧ tools.dataExtractor_run (pystr "Contact us.") (pystr "CONTACT")
        ≠ pystr "Data type '" ++ pystr "CONTACT"
            ++ pystr "' not supported. Supported types: contact, products, about"
    ∧ tools.dataExtractor_run (pystr "Contact us.") (pystr "CONTACT") = pystr "Contact us" := by
  decide

/-- Claim C6 (amended): for every content and every category value whose
lowercasing is none of contact/products/about, the extractor returns the
fixed unsupported-category message embedding that category value — and,
being a total function in the embedding, it never raises. -/
theorem C6_unsupported_category (content data_type : List Char)
    (h1 : pyLower data_type ≠ pystr "contact")
    (h2 : pyLower data_type ≠ pystr "products")
    (h3 : pyLower data_type ≠ pystr "about") :
    tools.dataExtractor_run content data_type
      = pystr "Data type '" ++ data_type
          ++ pystr "' not supported. Supported types: contact, products, about" := by
  unfold tools.dataExtractor_run
  rw [if_neg h1, if_neg h2, if_neg h3]

theorem C6_unsupported_category_witness :
    tools.dataExtractor_run (pystr "anything") (pystr "unknown-category")
      = pystr "Data type '" ++ pystr "unknown-category"
          ++ pystr "' not supported. Supported types: contact, products, about" :=
  C6_unsupported_category (pystr "anything") (pystr "unknown-category")
    (by decide) (by decide) (by decide)

/-- Claim C7: a transport-level failure of the page fetch (the HTTP request
raising a `RequestException`) makes the tool return a human-readable error
string as its ordinary result — `_run` is a total function into strings in
the embedding, so the failure is data, not a propagated exception, and a
single failed fetch cannot abort the pipeline. -/
theorem C7_scraper_error_as_data (e : List Char) :
    tools.websiteScraper_run (.requestError e) = pystr "Error scraping website: " ++ e := rfl

/-- Claim C8: on each call of the local fallback, every dispatched message
has its tool-call marker stripped before dispatch, the generated length is
capped (max_tokens 1000), and the default hard wall-clock timeout of 1200
time units is handed to the call to enforce; the async
(suspend-until-response) mode builds the identical request as the blocking
mode. -/
theorem C8_custom_ollama_dispatch (prompts : agents.Prompts) :
    (∀ m ∈ (agents.customOllama_generate {} prompts).messages, m.tool_calls = none)
    ∧ (agents.customOllama_generate {} prompts).max_tokens = 1000
    ∧ (agents.customOllama_generate {} prompts).timeout = 1200
    ∧ agents.customOllama_agenerate {} prompts = agents.customOllama_generate {} prompts := by
  refine ⟨?_, rfl, rfl, rfl⟩
  intro m hm
  rcases List.mem_map.mp (by simpa [agents.customOllama_generate] using hm) with ⟨m0, _, rfl⟩
  rfl

theorem C8_custom_ollama_dispatch_witness :
    (agents.customOllama_generate {}
        (.msgs [⟨"assistant", "hi", some "x"⟩])).messages = [⟨"assistant", "hi", none⟩]
    ∧ (⟨"assistant", "hi", none⟩ : agents.Message).tool_calls = none :=
  ⟨rfl,
   (C8_custom_ollama_dispatch (.msgs [⟨"assistant", "hi", some "x"⟩])).1
     ⟨"assistant", "hi", none⟩ (by decide)⟩

/-- Claim C9: every task description produced by either task builder — all 3
basic tasks and all 5 comprehensive tasks — contains the literal company name
as a substring. -/
theorem C9_descriptions_contain_name (env : agents.Env) (name : String) :
    (∀ t ∈ agents.create_basic_research_tasks env name,
      ∃ p q, t.description = p ++ name ++ q)
    ∧ ∀ t ∈ agents.create_research_tasks env name,
      ∃ p q, t.description = p ++ name ++ q := by
  constructor
  · intro t ht
    simp only [agents.create_basic_research_tasks, List.mem_cons,
      List.not_mem_nil, or_false] at ht
    rcases ht with rfl | rfl | rfl <;> exact ⟨_, _, rfl⟩
  · intro t ht
    simp only [agents.create_research_tasks, List.mem_cons,
      List.not_mem_nil, or_false] at ht
    rcases ht with rfl | rfl | rfl | rfl | rfl <;> exact ⟨_, _, rfl⟩

theorem C9_descriptions_contain_name_witness :
    ∃ p q,
      ((agents.create_basic_research_tasks ⟨none, none⟩ "Acme").headD
          { description := "", agent := agents.WebResearcher ⟨none, none⟩,
            expected_output := "" }).description
        = p ++ "Acme" ++ q :=
  (C9_descriptions_contain_name ⟨none, none⟩ "Acme").1 _
    (by simp [agents.create_basic_research_tasks])

/-- Claim C10: the snippet extractor's output is keyword-grouped — the code
iterates over the keyword list and re-scans all sentences per keyword, so a
sentence containing two distinct contact keywords appears twice, output order
follows keyword order rather than position in the content, and when no
period-split sentence contains any keyword of the category the joined result
is the empty string. -/
theorem C10_output_shape :
    tools.extractFor (pystr "Contact us by email.") tools.contact_keywords
      = [pystr "Contact us by email", pystr "Contact us by email"]
    ∧ tools.extractFor (pystr "Our phone is here. Contact info.") tools.contact_keywords
      = [pystr "Contact info", pystr "Our phone is here"]
    ∧ (∀ content : List Char,
        (∀ s ∈ pySplitDot content, ∀ kw ∈ tools.contact_keywords,
          pyIn kw (pyLower s) = false) →
        tools.dataExtractor_run content (pystr "contact") = [])
    ∧ (∀ content : List Char,
        (∀ s ∈ pySplitDot content, ∀ kw ∈ tools.product_keywords,
          pyIn kw (pyLower s) = false) →
        tools.dataExtractor_run content (pystr "products") = [])
    ∧ (∀ content : List Char,
        (∀ s ∈ pySplitDot content, ∀ kw ∈ tools.about_keywords,
          pyIn kw (pyLower s) = false) →
        tools.dataExtractor_run content (pystr "about") = []) := by
  refine ⟨by decide, by decide, ?_, ?_, ?_⟩
  · intro content h
    show List.intercalate (pystr "\n")
      ((tools.extractFor content tools.contact_keywords).take 5) = []
    rw [extractFor_eq_nil h]
    rfl
  · intro content h
    show List.intercalate (pystr "\n")
      ((tools.extractFor content tools.product_keywords).take 10) = []
    rw [extractFor_eq_nil h]
    rfl
  · intro content h
    show List.intercalate (pystr "\n")
      ((tools.extractFor content tools.about_keywords).take 10) = []
    rw [extractFor_eq_nil h]
    rfl

theorem C10_output_shape_witness :
    tools.dataExtractor_run (pystr "Hello world") (pystr "contact") = [] :=
  C10_output_shape.2.2.1 (pystr "Hello world") (by decide)

end ResearchAssistant
